import Mathlib

/-!
Verification of the SqExcel backend (src/backend/seeq_runner.py and
src/backend/seeq_auth.py) against its natural-language specification.

The development shallowly embeds the Python source:

* `Timestamp` models a pandas `Timestamp`: a naive wall-clock time
  (rational seconds since 1899-12-30T00:00:00, the spreadsheet epoch used by
  the source) together with an optional fixed-offset timezone in minutes.
* `PyVal` models the Python values reaching `clean_for_json`: JSON scalars,
  floats (including NaN), `pandas.Timestamp`, `pandas.NaT`, dicts and lists.
* Calls into the external analytics client (`spy.login`, `spy.search`,
  `spy.pull`) and the free-form parsers of the pandas/dateutil libraries
  (`pd.to_datetime` without an explicit format, `dateutil.parser.parse`)
  are oracles carried by a `World` record; everything the repository itself
  computes is translated concretely.
* Each public operation returns its JSON result envelope together with the
  list of remote calls it issued, in order.
-/

/-! ## Calendar arithmetic

Executable civil-calendar conversions (Howard Hinnant's algorithms), used to
model `pandas.Timestamp` construction and `strftime`. -/

/-- Days from civil date (proleptic Gregorian) to days since 1970-01-01. -/
def daysFromCivil (y m d : Int) : Int :=
  let yy := y - (if m ≤ 2 then 1 else 0)
  let era := yy.fdiv 400
  let yoe := yy - era * 400
  let mp := m + (if m > 2 then -3 else 9)
  let doy := (153 * mp + 2).fdiv 5 + d - 1
  let doe := yoe * 365 + yoe.fdiv 4 - yoe.fdiv 100 + doy
  era * 146097 + doe - 719468

/-- Inverse of `daysFromCivil`: (year, month, day) from days since 1970-01-01. -/
def civilFromDays (z0 : Int) : Int × Int × Int :=
  let z := z0 + 719468
  let era := z.fdiv 146097
  let doe := z - era * 146097
  let yoe := (doe - doe.fdiv 1460 + doe.fdiv 36524 - doe.fdiv 146096).fdiv 365
  let y := yoe + era * 400
  let doy := doe - (365 * yoe + yoe.fdiv 4 - yoe.fdiv 100)
  let mp := (5 * doy + 2).fdiv 153
  let d := doy - (153 * mp + 2).fdiv 5 + 1
  let m := mp + (if mp < 10 then 3 else -9)
  (y + (if m ≤ 2 then 1 else 0), m, d)

/-- Days since 1970-01-01 of the spreadsheet epoch 1899-12-30 used at
`seeq_runner.py:322` (`pd.Timestamp('1899-12-30')`). -/
def excelEpochDays : Int := daysFromCivil 1899 12 30

/-- A pandas `Timestamp`: naive wall-clock time as whole seconds since
1899-12-30T00:00:00 plus an optional fixed timezone offset in minutes
(`none` = tz-naive).  pandas keeps nanoseconds; the claims under check only
involve whole-second instants, and `strftime('%Y-%m-%d %H:%M:%S')` truncates
to seconds, so wall clocks are modelled at second resolution. -/
structure Timestamp where
  wall : Int
  tz : Option Int
deriving DecidableEq

/-- Render an integer zero-padded to two digits (strftime field). -/
def pad2 (n : Int) : String := if n < 10 then "0" ++ toString n else toString n

/-- Render a year zero-padded to four digits (strftime `%Y`). -/
def pad4 (n : Int) : String :=
  if n < 10 then "000" ++ toString n
  else if n < 100 then "00" ++ toString n
  else if n < 1000 then "0" ++ toString n
  else toString n

/-- Model of `Timestamp.strftime('%Y-%m-%d %H:%M:%S')` on a naive wall-clock
value (seconds since 1899-12-30T00:00:00). -/
def strftimeYmdHMS (total : Int) : String :=
  let days := total.fdiv 86400
  let rem := total - days * 86400
  let c := civilFromDays (excelEpochDays + days)
  pad4 c.1 ++ "-" ++ pad2 c.2.1 ++ "-" ++ pad2 c.2.2 ++ " " ++
    pad2 (rem.fdiv 3600) ++ ":" ++ pad2 ((rem.fdiv 60).fmod 60) ++ ":" ++
    pad2 (rem.fmod 60)

/-- Wall-clock seconds since 1899-12-30T00:00:00 of a civil date-time. -/
def civilWall (y m d h mi s : Int) : Int :=
  (daysFromCivil y m d - excelEpochDays) * 86400 + h * 3600 + mi * 60 + s

/-! ## Timestamp timezone primitives

Models of the pandas methods used by the source. Offsets are fixed offsets
in minutes; `wall` is always the clock reading in the timestamp's own zone. -/

/-- Model of `Timestamp.tz_localize('UTC')`: attaches UTC to a naive
timestamp; pandas raises `TypeError: Already tz-aware` on an aware one. -/
def tz_localize_utc (t : Timestamp) : Except String Timestamp :=
  match t.tz with
  | some _ => .error "Already tz-aware, use tz_convert to convert."
  | none => .ok { t with tz := some 0 }

/-- Model of `Timestamp.tz_convert(zone)` for a fixed-offset zone of `z`
minutes: converts an aware timestamp, keeping the absolute instant; pandas
raises `TypeError` on a naive one. -/
def tz_convert (z : Int) (t : Timestamp) : Except String Timestamp :=
  match t.tz with
  | none => .error "Cannot convert tz-naive Timestamp, use tz_localize to localize"
  | some o => .ok ⟨t.wall - o * 60 + z * 60, some z⟩

/-! ## The Python value universe reaching the JSON sanitizer -/

/-- A Python float: either NaN or an exact value.  Only NaN matters to the
sanitizer (`obj != obj` at `seeq_runner.py:512`). -/
inductive PyFloat where
  | nan
  | val (q : ℚ)
deriving DecidableEq

mutual

/-- Python values traversed by `clean_for_json` (`seeq_runner.py:507-527`):
JSON scalars, floats (possibly NaN), `pandas.Timestamp`, `pandas.NaT`
(which satisfies both `obj != obj` and `hasattr(obj, 'isoformat')`),
dicts and lists. -/
inductive PyVal where
  | str (s : String)
  | bool (b : Bool)
  | int (n : Int)
  | float (x : PyFloat)
  | pynone
  | timestamp (t : Timestamp)
  | nat
  | dict (fields : PyFields)
  | list (elems : PyList)
deriving DecidableEq

/-- Key/value entries of a Python dict. -/
inductive PyFields where
  | nil
  | cons (k : String) (v : PyVal) (tl : PyFields)
deriving DecidableEq

/-- Elements of a Python list. -/
inductive PyList where
  | nil
  | cons (hd : PyVal) (tl : PyList)
deriving DecidableEq

end

/-- Python `obj != obj`: true exactly for NaN floats and `pandas.NaT`. -/
def selfNe : PyVal → Bool
  | .float .nan => true
  | .nat => true
  | _ => false

/-- Python `hasattr(obj, 'isoformat')`: true for `pandas.Timestamp` and for
`pandas.NaT` (NaT exposes an `isoformat` method). -/
def hasIsoformat : PyVal → Bool
  | .timestamp _ => true
  | .nat => true
  | _ => false

/-- Is the value a string? -/
def isStrVal : PyVal → Bool
  | .str _ => true
  | _ => false

/-- The timestamp branch of `clean_for_json` (`seeq_runner.py:516-524`):
if tz-aware, `tz_convert('UTC')` then `strftime('%Y-%m-%d %H:%M:%S')`;
otherwise format the naive value directly. -/
def timestampToExcelString (t : Timestamp) : String :=
  match t.tz with
  | some o => strftimeYmdHMS (t.wall - o * 60)
  | none => strftimeYmdHMS t.wall

mutual

/-- Model of `clean_for_json` (`seeq_runner.py:507-527`).  Branch order
follows the source: dict, list, `obj != obj` (NaN/NaT) to `None`,
`hasattr(obj, 'isoformat')` to the Excel-friendly string, otherwise the
value passes through unchanged. -/
def clean_for_json : PyVal → PyVal
  | .dict fs => .dict (cleanFields fs)
  | .list es => .list (cleanList es)
  | .float .nan => .pynone
  | .nat => .pynone
  | .timestamp t => .str (timestampToExcelString t)
  | v => v

/-- `clean_for_json` over dict entries: values cleaned, keys unchanged. -/
def cleanFields : PyFields → PyFields
  | .nil => .nil
  | .cons k v tl => .cons k (clean_for_json v) (cleanFields tl)

/-- `clean_for_json` over list elements. -/
def cleanList : PyList → PyList
  | .nil => .nil
  | .cons v tl => .cons (clean_for_json v) (cleanList tl)

end

mutual

/-- A NaN float leaf occurs somewhere in the value. -/
def hasNaNLeaf : PyVal → Bool
  | .float .nan => true
  | .dict fs => fieldsHaveNaN fs
  | .list es => listHasNaN es
  | _ => false

/-- A NaN float leaf occurs among the dict entries. -/
def fieldsHaveNaN : PyFields → Bool
  | .nil => false
  | .cons _ v tl => hasNaNLeaf v || fieldsHaveNaN tl

/-- A NaN float leaf occurs among the list elements. -/
def listHasNaN : PyList → Bool
  | .nil => false
  | .cons v tl => hasNaNLeaf v || listHasNaN tl

end

/-- Modelled from the spec wording of the Sanitizer's timestamp rule: the
canonical string `YYYY-MM-DD HH:MM:SS`, converting to UTC first when the
value carries timezone information, otherwise formatting the naive value
directly. -/
def spec_timestamp_string (t : Timestamp) : String :=
  match t.tz with
  | some o => strftimeYmdHMS (t.wall - o * 60)
  | none => strftimeYmdHMS t.wall

/-! ## The explicit calendar layouts of `parse_excel_friendly_datetime`

`seeq_runner.py:293-314` tries a fixed ordered list of explicit strptime
layouts via `pd.to_datetime(dt_str, format=fmt)`.  The layouts are modelled
concretely: numeric fields of one or two digits (four for the year), the
literal separators of each layout, and calendar/clock range validation.
All string work is over `List Char` so the definitions reduce in the
kernel. -/

/-- Split a character list at every occurrence of `c` (single-character
analogue of `str.split`). -/
def splitChar (c : Char) : List Char → List (List Char)
  | [] => [[]]
  | x :: xs =>
    let r := splitChar c xs
    if x = c then [] :: r
    else
      match r with
      | [] => [[x]]
      | h :: t => (x :: h) :: t

/-- Numeric value of a digit string. -/
def digitsVal (l : List Char) : Nat :=
  l.foldl (fun a c => a * 10 + (c.toNat - 48)) 0

/-- A strptime numeric field: between `lo` and `hi` digits, all decimal. -/
def numField (l : List Char) (lo hi : Nat) : Option Int :=
  if lo ≤ l.length ∧ l.length ≤ hi ∧ l.all Char.isDigit then
    some (digitsVal l : Int)
  else none

/-- Gregorian leap year. -/
def isLeapYear (y : Int) : Bool := (y % 4 == 0 && y % 100 != 0) || y % 400 == 0

/-- Days in a month, for validating parsed calendar dates. -/
def daysInMonth (y m : Int) : Int :=
  if m = 2 then (if isLeapYear y then 29 else 28)
  else if m = 4 ∨ m = 6 ∨ m = 9 ∨ m = 11 then 30 else 31

/-- Field order of the date portion of a layout. -/
inductive DateOrder where
  | mdy
  | ymd
  | dmy
deriving DecidableEq

/-- Parse the date portion of a layout: three numeric fields joined by
`sep`, in the given order, validated as a calendar date. -/
def parseDatePart (ord : DateOrder) (sep : Char) (l : List Char) : Option (Int × Int × Int) :=
  match splitChar sep l with
  | [a, b, c] => do
      let (y, m, d) ←
        match ord with
        | .mdy => do
            let m ← numField a 1 2
            let d ← numField b 1 2
            let y ← numField c 4 4
            pure (y, m, d)
        | .ymd => do
            let y ← numField a 4 4
            let m ← numField b 1 2
            let d ← numField c 1 2
            pure (y, m, d)
        | .dmy => do
            let d ← numField a 1 2
            let m ← numField b 1 2
            let y ← numField c 4 4
            pure (y, m, d)
      if 1 ≤ m ∧ m ≤ 12 ∧ 1 ≤ d ∧ d ≤ daysInMonth y m then some (y, m, d) else none
  | _ => none

/-- Parse a 24-hour `%H:%M:%S` clock into seconds within the day. -/
def parseTimeHMS (l : List Char) : Option Int :=
  match splitChar ':' l with
  | [hs, ms, ss] => do
      let h ← numField hs 1 2
      let mi ← numField ms 1 2
      let sec ← numField ss 1 2
      if h ≤ 23 ∧ mi ≤ 59 ∧ sec ≤ 59 then some (h * 3600 + mi * 60 + sec) else none
  | _ => none

/-- Parse a 12-hour `%I:%M:%S` clock plus an `%p` marker into seconds. -/
def parseTimeIMSP (timePart ampm : List Char) : Option Int :=
  match splitChar ':' timePart with
  | [hs, ms, ss] => do
      let h ← numField hs 1 2
      let mi ← numField ms 1 2
      let sec ← numField ss 1 2
      if 1 ≤ h ∧ h ≤ 12 ∧ mi ≤ 59 ∧ sec ≤ 59 then
        match ampm.map Char.toLower with
        | ['a', 'm'] => some ((h % 12) * 3600 + mi * 60 + sec)
        | ['p', 'm'] => some ((h % 12 + 12) * 3600 + mi * 60 + sec)
        | _ => none
      else none
  | _ => none

/-- The nine explicit layouts of `excel_formats` (`seeq_runner.py:295-305`),
in source order. -/
inductive ExcelFormat where
  | mdySlash
  | mdySlashHMS
  | mdySlashIMSP
  | ymdDash
  | ymdDashHMS
  | mdyDash
  | mdyDashHMS
  | dmySlash
  | dmySlashHMS
deriving DecidableEq

/-- The ordered `excel_formats` list of the source. -/
def excel_formats : List ExcelFormat :=
  [.mdySlash, .mdySlashHMS, .mdySlashIMSP, .ymdDash, .ymdDashHMS,
   .mdyDash, .mdyDashHMS, .dmySlash, .dmySlashHMS]

/-- Build a naive timestamp from a validated civil date plus day seconds. -/
def mkNaive (ymd : Int × Int × Int) (daySec : Int) : Timestamp :=
  ⟨civilWall ymd.1 ymd.2.1 ymd.2.2 0 0 0 + daySec, none⟩

/-- Model of `pd.to_datetime(dt_str, format=fmt)` for one explicit layout:
the whole string must match the layout; the result is timezone-naive. -/
def strptime (f : ExcelFormat) (s : String) : Option Timestamp :=
  let l := s.toList
  match f with
  | .mdySlash => (parseDatePart .mdy '/' l).map (mkNaive · 0)
  | .mdySlashHMS =>
      match splitChar ' ' l with
      | [ds, ts] => do
          let ymd ← parseDatePart .mdy '/' ds
          let sec ← parseTimeHMS ts
          pure (mkNaive ymd sec)
      | _ => none
  | .mdySlashIMSP =>
      match splitChar ' ' l with
      | [ds, ts, ap] => do
          let ymd ← parseDatePart .mdy '/' ds
          let sec ← parseTimeIMSP ts ap
          pure (mkNaive ymd sec)
      | _ => none
  | .ymdDash => (parseDatePart .ymd '-' l).map (mkNaive · 0)
  | .ymdDashHMS =>
      match splitChar ' ' l with
      | [ds, ts] => do
          let ymd ← parseDatePart .ymd '-' ds
          let sec ← parseTimeHMS ts
          pure (mkNaive ymd sec)
      | _ => none
  | .mdyDash => (parseDatePart .mdy '-' l).map (mkNaive · 0)
  | .mdyDashHMS =>
      match splitChar ' ' l with
      | [ds, ts] => do
          let ymd ← parseDatePart .mdy '-' ds
          let sec ← parseTimeHMS ts
          pure (mkNaive ymd sec)
      | _ => none
  | .dmySlash => (parseDatePart .dmy '/' l).map (mkNaive · 0)
  | .dmySlashHMS =>
      match splitChar ' ' l with
      | [ds, ts] => do
          let ymd ← parseDatePart .dmy '/' ds
          let sec ← parseTimeHMS ts
          pure (mkNaive ymd sec)
      | _ => none

/-- The `for fmt in excel_formats` loop (`seeq_runner.py:307-314`): first
layout that parses wins. -/
def firstExcelFormatParse (s : String) : Option Timestamp :=
  excel_formats.findSome? (fun f => strptime f s)

/-! ## The spreadsheet serial-number fallback -/

/-- Model of Python `float(dt_str)` on plain decimal literals, returning the
exact value as `numerator / 10 ^ fractionDigits` (so `"45292.5"` gives
`(452925, 10)`).  Exponent, infinity and NaN spellings are outside the
claims under check and parse to `none` here. -/
def python_float_parse (s : String) : Option (Int × Nat) :=
  let (sgn, body) :=
    match s.toList with
    | '-' :: r => ((-1 : Int), r)
    | '+' :: r => ((1 : Int), r)
    | r => ((1 : Int), r)
  match splitChar '.' body with
  | [ip] =>
      if ip ≠ [] ∧ ip.all Char.isDigit then some (sgn * (digitsVal ip : Int), 1) else none
  | [ip, fp] =>
      if ip.all Char.isDigit ∧ fp.all Char.isDigit ∧ ¬(ip = [] ∧ fp = []) then
        some (sgn * ((digitsVal ip : Int) * (10 : Int) ^ fp.length + (digitsVal fp : Int)),
          (10 : Nat) ^ fp.length)
      else none
  | _ => none

/-- The serial-number interpretation (`seeq_runner.py:316-327`):
`pd.Timestamp('1899-12-30') + pd.Timedelta(days=serial)`, truncated to whole
seconds (fractional serials contribute sub-day time). -/
def excelSerialTimestamp (f : Int × Nat) : Timestamp :=
  ⟨(f.1 * 86400).fdiv (f.2 : Int), none⟩

/-! ## The full fallback chain -/

/-- Model of `parse_excel_friendly_datetime` (`seeq_runner.py:275-340`).

`flex` is the oracle for `pd.to_datetime(dt_str)` (free-form parsing) and
`du` the oracle for `dateutil.parser.parse`; both are external-library
calls.  A falsy input (`None` or the empty string) returns `None`
immediately (lines 280-282).  Note that the `raise ValueError` at line 340
sits in an except-clause whose try-body handles every strategy failure
locally, so when all four strategies fail the function falls off the end of
the try-body and returns `None`; the raise is unreachable on the data path
and the translated function is total. -/
def parse_excel_friendly_datetime (flex du : String → Option Timestamp)
    (raw : Option String) : Option Timestamp :=
  match raw with
  | none => none
  | some s =>
    if s = "" then none
    else
      match flex s with
      | some t => some t
      | none =>
        match firstExcelFormatParse s with
        | some t => some t
        | none =>
          match python_float_parse s with
          | some f => some (excelSerialTimestamp f)
          | none => du s

/-! ## Result envelopes

Each Python dict literal returned by an operation is modelled as an ordered
association list with the exact keys of the source. -/

/-- A value stored inside a result envelope. -/
inductive EnvVal where
  | b (x : Bool)
  | s (x : String)
  | n (x : Int)
  | py (x : PyVal)
  | strs (x : List String)
  | nested (x : List (String × EnvVal))

/-- A result envelope: the JSON object returned by a public operation. -/
def Envelope := List (String × EnvVal)

/-- Python `d[key]` or `d.get(key)` on an envelope. -/
def lookupEnv : List (String × EnvVal) → String → Option EnvVal
  | [], _ => none
  | (k, v) :: tl, key => if k = key then some v else lookupEnv tl key

/-- The boolean stored under `success`, if any. -/
def getSuccess (e : Envelope) : Option Bool :=
  match lookupEnv e "success" with
  | some (.b x) => some x
  | _ => none

/-- Does the envelope carry the key at all? -/
def hasKey (e : Envelope) (k : String) : Bool := (lookupEnv e k).isSome

/-- Python `d.get(key, default)` restricted to string values. -/
def getStrOr (e : Envelope) (k d : String) : String :=
  match lookupEnv e k with
  | some (.s x) => x
  | _ => d

/-- The envelope contract of the spec: `success` is always present and
boolean, and `error`/`traceback` occur only when `success` is `false`. -/
def envOKb (e : Envelope) : Bool :=
  (getSuccess e).isSome &&
    (!(hasKey e "error" || hasKey e "traceback") || getSuccess e == some false)

/-! ## Rows, pull tables and the remote-call trace -/

/-- One record of a search-result dataframe.  `spy.search` rows carry a
`Name` and an `ID`; the source adds `Original_Name` (the requested name)
and builds placeholder rows carrying a `Status`. -/
structure Row where
  name : String
  id : Option String
  originalName : String
  status : Option String
deriving DecidableEq

/-- The dataframe returned by `spy.pull`, already converted to records form
(`data_df.reset_index().to_dict('records')`) plus its column and index
labels. -/
structure PullTable where
  records : PyVal
  columns : List String
  index : List String

/-- A remote call issued to the analytics client, in issue order. -/
inductive RemoteCall where
  | login (sslFlag : Bool)
  | search (name : String)
  | pull (rows : List Row) (start stop : Timestamp) (grid : String)
deriving DecidableEq

/-- Result of the `spy.options.compatibility = 66` statement: succeeds,
raises `AttributeError` (caught at `seeq_runner.py:49`), or raises some
other exception (escaping to the outer handler). -/
inductive CompatRes where
  | ok
  | attrError
  | raised (msg : String)

/-- The external world: pandas import, the SPy client (login result, the
`spy.user` attribute, search and pull), and the two free-form parser
oracles with the message text their exceptions carry. -/
structure World where
  pandasImport : Except String Unit
  compat : CompatRes
  login : Except String Unit
  user : Option String
  search : String → Except String (List Row)
  pull : List Row → Timestamp → Timestamp → String → Except String PullTable
  flex : String → Option Timestamp
  du : String → Option Timestamp
  parseErr : String

/-! ## Argument coercion (`seeq_runner.py:62-66`) -/

/-- A loosely-typed Python argument as passed for `ignore_ssl_errors`:
a bool, a string, or any other value. -/
inductive PyArg where
  | pbool (b : Bool)
  | pstr (s : String)
  | pother
deriving DecidableEq

/-- Model of Python `str.lower()`. -/
def pyLower (s : String) : String := ⟨s.toList.map Char.toLower⟩

/-- The `ignore_ssl_errors` coercion: a string is true iff its lowercase
form is one of `'true', '1', 'yes', 'on'`; a bool passes through; anything
else becomes `False`. -/
def coerce_ignore_ssl : PyArg → Bool
  | .pstr s => ["true", "1", "yes", "on"].contains (pyLower s)
  | .pbool b => b
  | .pother => false

/-! ## authenticate_seeq (`seeq_runner.py:34-110`) -/

/-- The credential bundle of the public operations. -/
structure Creds where
  url : String
  accessKey : String
  password : String
  authProvider : String
  ignoreSsl : PyArg

/-- Model of `traceback.format_exc()` for an exception with message `m`. -/
def format_exc (m : String) : String := "Traceback (most recent call last): " ++ m

/-- The outer-except envelope of `authenticate_seeq` (lines 101-110). -/
def authExcEnv (m : String) : Envelope :=
  [("success", .b false), ("message", .s ("Authentication failed: " ++ m)),
   ("error", .s m), ("traceback", .s (format_exc m))]

/-- The success envelope of `authenticate_seeq` (lines 88-93). -/
def authSuccessEnv (u url : String) : Envelope :=
  [("success", .b true), ("message", .s ("Successfully authenticated as " ++ u)),
   ("user", .s u), ("server_url", .s url)]

/-- The `spy.user is None` envelope of `authenticate_seeq` (lines 95-99). -/
def authNoUserEnv : Envelope :=
  [("success", .b false), ("message", .s "Authentication failed - no user returned"),
   ("error", .s "No user returned from SPy")]

/-- Model of `authenticate_seeq` in `seeq_runner.py`.  A non-AttributeError
from the compatibility assignment escapes to the outer handler before the
login call; otherwise `ignore_ssl_errors` is coerced and `spy.login` is
issued with it. -/
def authenticate_seeq (c : Creds) (w : World) : Envelope × List RemoteCall :=
  match w.compat with
  | .raised m => (authExcEnv m, [])
  | _ =>
    let ssl := coerce_ignore_ssl c.ignoreSsl
    match w.login with
    | .error m => (authExcEnv m, [.login ssl])
    | .ok _ =>
      match w.user with
      | some u => (authSuccessEnv u c.url, [.login ssl])
      | none => (authNoUserEnv, [.login ssl])

/-! ## check_auth_status (`seeq_runner.py:112-136`) -/

/-- Model of `check_auth_status`: reads `spy.user` and the process-global
`auth_state['is_authenticated']` flag. -/
def check_auth_status (user : Option String) (isAuth : Bool) : Envelope :=
  match user, isAuth with
  | some u, true =>
      [("success", .b true), ("isAuthenticated", .b true), ("user", .s u),
       ("message", .s ("Authenticated as " ++ u))]
  | _, _ =>
      [("success", .b true), ("isAuthenticated", .b false),
       ("message", .s "Not authenticated")]

/-! ## The per-sensor search loop (`seeq_runner.py:412-445`) -/

/-- One loop iteration: a successful non-empty search contributes its rows
with `Original_Name` set to the requested name; an empty result contributes
a `Not Found` placeholder; an exception contributes a `Search Error`
placeholder.  No outcome aborts the batch. -/
def searchOne (w : World) (n : String) : List Row :=
  match w.search n with
  | .ok rows =>
      if rows = [] then [⟨n, none, n, some "Not Found"⟩]
      else rows.map (fun r => { r with originalName := n })
  | .error m => [⟨n, none, n, some ("Search Error: " ++ m)⟩]

/-- The `search_results` list of dataframes, one entry per requested name. -/
def searchPhase (w : World) (names : List String) : List (List Row) :=
  names.map (searchOne w)

/-- `pd.concat(search_results)`: all rows in first-occurrence order. -/
def combinedRows (w : World) (names : List String) : List Row :=
  (searchPhase w names).flatten

/-- A `Row` as the Python dict produced by `to_dict('records')`. -/
def optStrPy : Option String → PyVal
  | some s => .str s
  | none => .pynone

/-- One search-result record as a Python dict. -/
def rowToPy (r : Row) : PyVal :=
  .dict (.cons "Name" (.str r.name) (.cons "ID" (optStrPy r.id)
    (.cons "Type" (.str "StoredSignal") (.cons "Original_Name" (.str r.originalName)
      (.cons "Status" (optStrPy r.status) .nil)))))

/-- A record list as the Python list of dicts. -/
def rowsToPy (l : List Row) : PyVal :=
  .list (l.foldr (fun r acc => .cons (rowToPy r) acc) .nil)

/-! ## search_sensors_only (`seeq_runner.py:138-233`) -/

/-- Outer-except envelope of `search_sensors_only` (lines 224-233). -/
def searchExcEnv (m : String) : Envelope :=
  [("success", .b false), ("message", .s ("Search operation failed: " ++ m)),
   ("error", .s m), ("traceback", .s (format_exc m))]

/-- Missing-credentials envelope (lines 165-170). -/
def missingCredsEnv : Envelope :=
  [("success", .b false), ("message", .s "Authentication credentials are required"),
   ("error", .s "Missing credentials")]

/-- Failed-authentication envelope wrapping the inner auth envelope
(lines 151-157). -/
def authRequiredEnv (authEnv : Envelope) : Envelope :=
  [("success", .b false),
   ("message", .s ("Authentication failed: " ++ getStrOr authEnv "error" "Unknown error")),
   ("error", .s "Authentication required"),
   ("auth_details", .nested authEnv)]

/-- `spy.user is None` after an apparently successful login (lines 158-164). -/
def authStateIssueEnv : Envelope :=
  [("success", .b false),
   ("message", .s "Authentication appeared successful but spy.user is still None"),
   ("error", .s "Authentication state issue")]

/-- Empty `search_results` envelope of `search_sensors_only` (lines 217-222). -/
def noSearchResultsEnv : Envelope :=
  [("success", .b false), ("message", .s "Search failed for all sensors"),
   ("error", .s "No search results")]

/-- Success envelope of `search_sensors_only` (lines 210-216). -/
def searchCompletedEnv (names : List String) (comb : List Row) : Envelope :=
  [("success", .b true),
   ("message", .s ("Search completed for " ++ toString names.length ++ " sensors")),
   ("search_results", .py (rowsToPy comb)),
   ("sensor_count", .n names.length)]

/-- Model of `search_sensors_only` in `seeq_runner.py`. -/
def search_sensors_only (names : List String) (c : Creds) (w : World) :
    Envelope × List RemoteCall :=
  match w.pandasImport with
  | .error m => (searchExcEnv m, [])
  | .ok _ =>
    if c.url ≠ "" ∧ c.accessKey ≠ "" ∧ c.password ≠ "" then
      let ar := authenticate_seeq c w
      match getSuccess ar.1 with
      | some true =>
        match w.user with
        | none => (authStateIssueEnv, ar.2)
        | some _ =>
          let dfs := searchPhase w names
          let trace := ar.2 ++ names.map RemoteCall.search
          if dfs = [] then (noSearchResultsEnv, trace)
          else (searchCompletedEnv names dfs.flatten, trace)
      | _ => (authRequiredEnv ar.1, ar.2)
    else (missingCredsEnv, [])

/-! ## Timezone application in search_and_pull_sensors (`seeq_runner.py:362-373`) -/

/-- Model of lines 362-373: with a zone, both instants are localized as UTC
and converted (each `tz_localize` raising on an already-aware instant);
with no zone, the branch tests only `start_dt.tz` - when the start is
naive both are localized as UTC (the end raising if aware), and when the
start is aware both are left untouched. -/
def applyTimezone (tzArg : Option Int) (s e : Timestamp) :
    Except String (Timestamp × Timestamp) :=
  match tzArg with
  | some z =>
    match tz_localize_utc s with
    | .error m => .error m
    | .ok s1 =>
      match tz_convert z s1 with
      | .error m => .error m
      | .ok s2 =>
        match tz_localize_utc e with
        | .error m => .error m
        | .ok e1 =>
          match tz_convert z e1 with
          | .error m => .error m
          | .ok e2 => .ok (s2, e2)
  | none =>
    match s.tz with
    | none =>
      match tz_localize_utc s with
      | .error m => .error m
      | .ok s1 =>
        match tz_localize_utc e with
        | .error m => .error m
        | .ok e1 => .ok (s1, e1)
    | some _ => .ok (s, e)

/-- The whole datetime-resolution block (`seeq_runner.py:342-393`): parse
both raw inputs, return `ok none` when either comes back `None`
(the source then returns the missing-datetime envelope), and otherwise
apply the timezone step, whose exceptions surface as `error`. -/
def timeBounds (w : World) (tzArg : Option Int) (sd ed : Option String) :
    Except String (Option (Timestamp × Timestamp)) :=
  match parse_excel_friendly_datetime w.flex w.du sd,
        parse_excel_friendly_datetime w.flex w.du ed with
  | some s, some e => (applyTimezone tzArg s e).map some
  | _, _ => .ok none

/-- The resolved time bounds, if the block produced instants. -/
def resolvedBounds (w : World) (tzArg : Option Int) (sd ed : Option String) :
    Option (Timestamp × Timestamp) :=
  match timeBounds w tzArg sd ed with
  | .ok (some p) => some p
  | _ => none

/-! ## Deduplication (`seeq_runner.py:468-475`) -/

/-- Model of `valid_sensors.drop_duplicates(subset=['Original_Name'],
keep='first')`: keep a row iff no earlier row has the same
`Original_Name`, preserving order.  Structural recursion over a fuel
argument (the list length, always sufficient by `dropDupsFuel_eq_rec`)
keeps the definition kernel-computable. -/
def dropDupsFuel : Nat → List Row → List Row
  | _, [] => []
  | 0, _ :: _ => []
  | fuel + 1, r :: rest =>
      r :: dropDupsFuel fuel (rest.filter (fun x => x.originalName ≠ r.originalName))

/-- `drop_duplicates(subset=['Original_Name'], keep='first')`. -/
def drop_duplicates_first (l : List Row) : List Row := dropDupsFuel l.length l

/-- The same keep-first recursion written without fuel, as the induction
vehicle for the deduplication lemmas. -/
def dedupFirstRec : List Row → List Row
  | [] => []
  | r :: rest =>
      r :: dedupFirstRec (rest.filter (fun x => x.originalName ≠ r.originalName))
termination_by l => l.length
decreasing_by
  simp only [List.length_cons]
  exact Nat.lt_succ_of_le (List.length_filter_le _ _)

/-! ## search_and_pull_sensors (`seeq_runner.py:235-575`) -/

/-- The full argument list of `search_and_pull_sensors`.  `timezone` is the
optional zone argument, modelled as a fixed offset in minutes (`none` for
the falsy default). -/
structure SPArgs where
  sensorNames : List String
  startDatetime : Option String
  endDatetime : Option String
  grid : String
  timezone : Option Int
  url : String
  accessKey : String
  password : String
  authProvider : String
  ignoreSsl : PyArg

/-- Outer-except envelope of `search_and_pull_sensors` (lines 566-575). -/
def spExcEnv (m : String) : Envelope :=
  [("success", .b false), ("message", .s ("Search and pull operation failed: " ++ m)),
   ("error", .s m), ("traceback", .s (format_exc m))]

/-- Missing-datetime envelope (lines 354-360). -/
def missingDtEnv : Envelope :=
  [("success", .b false), ("message", .s "Start and end datetime are required"),
   ("error", .s "Missing datetime values")]

/-- The `supported_formats` list of lines 387-392. -/
def supported_formats : List String :=
  ["Excel dates: 9/1/2025, 9/1/2025 12:00:00 PM",
   "ISO format: 2025-09-01T00:00:00Z",
   "Standard formats: 09/01/2025, 2025-09-01",
   "Excel serial numbers: 45292.5"]

/-- Datetime-exception envelope (lines 383-393). -/
def invalidDtEnv (m : String) : Envelope :=
  [("success", .b false), ("message", .s ("Invalid datetime format: " ++ m)),
   ("error", .s "Datetime parsing failed"),
   ("supported_formats", .strs supported_formats)]

/-- Empty search-results envelope (lines 450-455). -/
def noSensorsFoundEnv : Envelope :=
  [("success", .b false), ("message", .s "No sensors found or search failed"),
   ("error", .s "Search returned no results")]

/-- All-sensors-failed envelope (lines 460-466). -/
def allFailedEnv (comb : List Row) : Envelope :=
  [("success", .b false), ("message", .s "No valid sensors found to pull data from"),
   ("error", .s "All sensors failed search"),
   ("search_results", .py (rowsToPy comb))]

/-- Pull-exception envelope of `seeq_runner.py` (lines 559-564). -/
def pullFailedEnv (m : String) (comb : List Row) : Envelope :=
  [("success", .b false), ("message", .s ("Failed to pull data: " ++ m)),
   ("error", .s m), ("search_results", .py (rowsToPy comb))]

/-- `str()` of a possibly-absent raw argument, as interpolated into
`time_range` (line 542). -/
def optRawStr : Option String → String
  | some s => s
  | none => "None"

/-- Success envelope of `search_and_pull_sensors` (lines 534-543): search
results and data are passed through `clean_for_json`. -/
def spSuccessEnv (n : Nat) (comb : List Row) (tbl : PullTable)
    (sd ed : Option String) : Envelope :=
  [("success", .b true),
   ("message", .s ("Successfully retrieved data for " ++ toString n ++ " sensors")),
   ("search_results", .py (clean_for_json (rowsToPy comb))),
   ("data", .py (clean_for_json tbl.records)),
   ("data_columns", .strs tbl.columns),
   ("data_index", .strs tbl.index),
   ("sensor_count", .n (n : Int)),
   ("time_range", .s (optRawStr sd ++ " to " ++ optRawStr ed))]

/-- Model of `search_and_pull_sensors` in `seeq_runner.py`: credentials
check, authentication (which issues the login call), datetime resolution,
the per-sensor search loop, the valid-ID filter, deduplication by
`Original_Name`, and the single bulk `spy.pull`. -/
def search_and_pull_sensors (a : SPArgs) (w : World) : Envelope × List RemoteCall :=
  match w.pandasImport with
  | .error m => (spExcEnv m, [])
  | .ok _ =>
    if a.url ≠ "" ∧ a.accessKey ≠ "" ∧ a.password ≠ "" then
      let ar := authenticate_seeq ⟨a.url, a.accessKey, a.password, a.authProvider, a.ignoreSsl⟩ w
      match getSuccess ar.1 with
      | some true =>
        match w.user with
        | none => (authStateIssueEnv, ar.2)
        | some _ =>
          match timeBounds w a.timezone a.startDatetime a.endDatetime with
          | .ok none => (missingDtEnv, ar.2)
          | .error m => (invalidDtEnv m, ar.2)
          | .ok (some (st, en)) =>
            let dfs := searchPhase w a.sensorNames
            let trace := ar.2 ++ a.sensorNames.map RemoteCall.search
            if dfs = [] then (noSensorsFoundEnv, trace)
            else
              let comb := dfs.flatten
              let valid := comb.filter (fun r => r.id.isSome)
              if valid = [] then (allFailedEnv comb, trace)
              else
                let deduped := drop_duplicates_first valid
                match w.pull deduped st en a.grid with
                | .error m => (pullFailedEnv m comb, trace ++ [.pull deduped st en a.grid])
                | .ok tbl =>
                    (spSuccessEnv deduped.length comb tbl a.startDatetime a.endDatetime,
                     trace ++ [.pull deduped st en a.grid])
      | _ => (authRequiredEnv ar.1, ar.2)
    else (missingCredsEnv, [])

/-! ## test_connection and get_server_info (`seeq_runner.py:577-613`) -/

/-- Model of `test_connection` in `seeq_runner.py`: the body cannot raise,
so the success envelope is returned unconditionally. -/
def test_connection (url : String) : Envelope :=
  [("success", .b true),
   ("message", .s "SPy module is available and ready for authentication"),
   ("status_code", .s "OK")]

/-- Model of `get_server_info` in `seeq_runner.py`. -/
def get_server_info (url : String) : Envelope :=
  [("success", .b true), ("message", .s "Server info retrieved successfully"),
   ("server_info", .nested [("status", .s "Available"), ("url", .s url)])]

/-! ## The seeq_auth.py variants

`seeq_auth.py` never imports or defines `spy` (its header comment says all
SPy operations go through `seeq_runner.py`), so in the repository as it
stands every `spy.…` access in this module raises `NameError` into the
enclosing handler.  The models take a `spyDefined` flag: `false` is the
state of the repository; the `true` branch models the body as written. -/

/-- The `NameError` message for the unbound `spy` of `seeq_auth.py`. -/
def nameErrorSpy : String := "name 'spy' is not defined"

/-- Model of `authenticate_seeq` in `seeq_auth.py` (lines 15-85): same body
as the runner version minus the server-option block and the global-state
update; with `spy` unbound the first access (line 40) raises into the
outer handler. -/
def seeq_auth_authenticate_seeq (c : Creds) (w : World) (spyDefined : Bool) :
    Envelope × List RemoteCall :=
  if spyDefined then
    match w.compat with
    | .raised m => (authExcEnv m, [])
    | _ =>
      let ssl := coerce_ignore_ssl c.ignoreSsl
      match w.login with
      | .error m => (authExcEnv m, [.login ssl])
      | .ok _ =>
        match w.user with
        | some u => (authSuccessEnv u c.url, [.login ssl])
        | none => (authNoUserEnv, [.login ssl])
  else (authExcEnv nameErrorSpy, [])

/-- Not-authenticated envelope of `seeq_auth.py` (lines 245-249). -/
def seeqAuthNotAuthEnv : Envelope :=
  [("success", .b false),
   ("message", .s "Not authenticated to Seeq. Please login first."),
   ("error", .s "Authentication required")]

/-- Re-authentication-failed envelope of `seeq_auth.py` (lines 239-243). -/
def seeqAuthReauthFailedEnv : Envelope :=
  [("success", .b false),
   ("message", .s "Authentication required and re-authentication failed"),
   ("error", .s "Authentication required")]

/-- Datetime-exception envelope of `seeq_auth.py` (lines 260-264). -/
def seeqAuthInvalidDtEnv (m : String) : Envelope :=
  [("success", .b false), ("message", .s ("Invalid datetime format: " ++ m)),
   ("error", .s "Datetime parsing failed")]

/-- Pull-exception envelope of `seeq_auth.py` (lines 351-357): unlike the
runner version, `error` is the fixed string `"Data pull failed"`. -/
def seeqAuthPullFailedEnv (m : String) (comb : List Row) : Envelope :=
  [("success", .b false), ("message", .s ("Failed to pull data: " ++ m)),
   ("error", .s "Data pull failed"), ("search_results", .py (rowsToPy comb))]

/-- `str()` of a Timestamp as interpolated into `time_range`
(`seeq_auth.py:345-346`); the timezone suffix of the Python repr is
immaterial to the claims and omitted. -/
def timestampRepr (t : Timestamp) : String := strftimeYmdHMS t.wall

/-- Success envelope of `seeq_auth.py`'s `search_and_pull_sensors`
(lines 336-349): results are NOT passed through `clean_for_json`. -/
def seeqAuthSuccessEnv (n : Nat) (comb : List Row) (tbl : PullTable)
    (st en : Timestamp) (grid : String) : Envelope :=
  [("success", .b true),
   ("message", .s ("Successfully retrieved data for " ++ toString n ++ " sensors")),
   ("search_results", .py (rowsToPy comb)),
   ("data", .py tbl.records),
   ("data_columns", .strs tbl.columns),
   ("data_index", .strs tbl.index),
   ("sensor_count", .n (n : Int)),
   ("time_range", .nested
     [("start", .s (timestampRepr st)), ("end", .s (timestampRepr en)),
      ("grid", .s grid)])]

/-- `pd.to_datetime(x, utc=True)` given the plain parse result: localize a
naive instant as UTC, convert an aware one to UTC. -/
def forceUtc (t : Timestamp) : Timestamp :=
  match t.tz with
  | none => { t with tz := some 0 }
  | some o => ⟨t.wall - o * 60, some 0⟩

/-- `tz_convert` from UTC to a fixed offset of `z` minutes (total, since
the input is always aware here). -/
def convertFromUtc (z : Int) (t : Timestamp) : Timestamp :=
  ⟨t.wall + z * 60, some z⟩

/-- The datetime block of `seeq_auth.py` (lines 252-258): with a zone,
`pd.to_datetime(x, utc=True).tz_convert(zone)`; without, a plain
`pd.to_datetime(x)`. -/
def seeqAuthParse (w : World) (tzArg : Option Int) (sd ed : String) :
    Option (Timestamp × Timestamp) :=
  match w.flex sd, w.flex ed with
  | some s, some e =>
      match tzArg with
      | some z => some (convertFromUtc z (forceUtc s), convertFromUtc z (forceUtc e))
      | none => some (s, e)
  | _, _ => none

/-- The body of `seeq_auth.py`'s `search_and_pull_sensors` after the
authentication check: parse, search loop, valid-ID filter and - with NO
deduplication step - the bulk pull over the filtered rows. -/
def seeqAuthAfterAuth (names : List String) (sd ed grid : String) (tzArg : Option Int)
    (w : World) (t0 : List RemoteCall) : Envelope × List RemoteCall :=
  match seeqAuthParse w tzArg sd ed with
  | none => (seeqAuthInvalidDtEnv w.parseErr, t0)
  | some (st, en) =>
    let dfs := searchPhase w names
    let trace := t0 ++ names.map RemoteCall.search
    if dfs = [] then (noSensorsFoundEnv, trace)
    else
      let comb := dfs.flatten
      let valid := comb.filter (fun r => r.id.isSome)
      if valid = [] then (allFailedEnv comb, trace)
      else
        match w.pull valid st en grid with
        | .error m => (seeqAuthPullFailedEnv m comb, trace ++ [.pull valid st en grid])
        | .ok tbl =>
            (seeqAuthSuccessEnv valid.length comb tbl st en grid,
             trace ++ [.pull valid st en grid])

/-- Model of `search_and_pull_sensors` in `seeq_auth.py` (lines 207-368).
With `spy` unbound (the repository state) the `spy.user` test at line 234
raises `NameError` straight into the outer handler and no remote call is
ever issued. -/
def seeq_auth_search_and_pull (names : List String) (sd ed grid : String)
    (tzArg : Option Int) (c : Creds) (w : World) (spyDefined : Bool) :
    Envelope × List RemoteCall :=
  if spyDefined then
    match w.user with
    | some _ => seeqAuthAfterAuth names sd ed grid tzArg w []
    | none =>
      if c.url ≠ "" ∧ c.accessKey ≠ "" ∧ c.password ≠ "" then
        let ar := seeq_auth_authenticate_seeq c w true
        match getSuccess ar.1 with
        | some true => seeqAuthAfterAuth names sd ed grid tzArg w ar.2
        | _ => (seeqAuthReauthFailedEnv, ar.2)
      else (seeqAuthNotAuthEnv, [])
  else (spExcEnv nameErrorSpy, [])

/-! ## Shared concrete instances for witnesses and counterexamples -/

/-- A concrete external world: pandas imports, login succeeds with user
`alice`, every search finds one row, pull returns an empty table, both
free-form parser oracles decline every string. -/
def sampleWorld : World :=
  { pandasImport := .ok ()
    compat := .ok
    login := .ok ()
    user := some "alice"
    search := fun n => .ok [⟨n, some "ID-1", n, none⟩]
    pull := fun _ _ _ _ => .ok ⟨.list .nil, ["TEMP.1"], []⟩
    flex := fun _ => none
    du := fun _ => none
    parseErr := "could not parse" }

/-- Concrete arguments whose start datetime is the empty string (a parse
failure) and whose end datetime matches an explicit layout. -/
def sampleArgs : SPArgs :=
  { sensorNames := ["TEMP.1"]
    startDatetime := some ""
    endDatetime := some "2025-09-01"
    grid := "15min"
    timezone := none
    url := "https://example"
    accessKey := "AK"
    password := "PW"
    authProvider := "Seeq"
    ignoreSsl := .pbool false }

/-- Is the remote call a search or a pull (as opposed to a login)? -/
def isSearchOrPull : RemoteCall → Bool
  | .login _ => false
  | _ => true


/-- Arguments identical to `sampleArgs` but with datetimes that match an
explicit layout, so the operation reaches the pull call. -/
def pullArgs : SPArgs :=
  { sampleArgs with startDatetime := some "2025-09-01", endDatetime := some "2025-09-02" }

/-! ## Sanitizer lemmas (claims C7-C9) -/

mutual

theorem clean_val_noNaN : ∀ v : PyVal, hasNaNLeaf (clean_for_json v) = false
  | .str _ => rfl
  | .bool _ => rfl
  | .int _ => rfl
  | .float .nan => rfl
  | .float (.val _) => rfl
  | .pynone => rfl
  | .timestamp _ => rfl
  | .nat => rfl
  | .dict fs => by simpa [clean_for_json, hasNaNLeaf] using clean_fields_noNaN fs
  | .list es => by simpa [clean_for_json, hasNaNLeaf] using clean_list_noNaN es

theorem clean_fields_noNaN : ∀ fs : PyFields, fieldsHaveNaN (cleanFields fs) = false
  | .nil => rfl
  | .cons k v tl => by
      simp [cleanFields, fieldsHaveNaN, clean_val_noNaN v, clean_fields_noNaN tl]

theorem clean_list_noNaN : ∀ es : PyList, listHasNaN (cleanList es) = false
  | .nil => rfl
  | .cons v tl => by
      simp [cleanList, listHasNaN, clean_val_noNaN v, clean_list_noNaN tl]

end

mutual

theorem clean_val_idem : ∀ v : PyVal, clean_for_json (clean_for_json v) = clean_for_json v
  | .str _ => rfl
  | .bool _ => rfl
  | .int _ => rfl
  | .float .nan => rfl
  | .float (.val _) => rfl
  | .pynone => rfl
  | .timestamp _ => rfl
  | .nat => rfl
  | .dict fs => by simp [clean_for_json, clean_fields_idem fs]
  | .list es => by simp [clean_for_json, clean_list_idem es]

theorem clean_fields_idem : ∀ fs : PyFields, cleanFields (cleanFields fs) = cleanFields fs
  | .nil => rfl
  | .cons k v tl => by
      simp [cleanFields, clean_val_idem v, clean_fields_idem tl]

theorem clean_list_idem : ∀ es : PyList, cleanList (cleanList es) = cleanList es
  | .nil => rfl
  | .cons v tl => by
      simp [cleanList, clean_val_idem v, clean_list_idem tl]

end


/-! ## Deduplication lemmas -/

theorem dropDupsFuel_eq_rec : ∀ (fuel : Nat) (l : List Row), l.length ≤ fuel →
    dropDupsFuel fuel l = dedupFirstRec l := by
  intro fuel
  induction fuel using Nat.strong_induction_on with
  | _ fuel ih =>
    intro l hlen
    cases l with
    | nil => cases fuel <;> (rw [dedupFirstRec]; rfl)
    | cons r rest =>
      cases fuel with
      | zero => simp at hlen
      | succ f =>
        rw [dedupFirstRec]
        show r :: dropDupsFuel f _ = _
        congr 1
        have hrest : rest.length ≤ f := by
          simpa using Nat.succ_le_succ_iff.mp (by simpa using hlen)
        exact ih f (Nat.lt_succ_self f) _
          (le_trans (List.length_filter_le _ _) hrest)

theorem dd_eq_rec (l : List Row) : drop_duplicates_first l = dedupFirstRec l :=
  dropDupsFuel_eq_rec l.length l le_rfl

theorem recDedup_subset : ∀ (l : List Row) (r : Row), r ∈ dedupFirstRec l → r ∈ l := by
  intro l
  induction l using dedupFirstRec.induct with
  | case1 =>
    intro r h
    rw [dedupFirstRec] at h
    exact absurd h (List.not_mem_nil r)
  | case2 a rest ih =>
    intro r h
    rw [dedupFirstRec] at h
    rcases List.mem_cons.mp h with rfl | h
    · exact List.mem_cons_self r rest
    · exact List.mem_cons_of_mem a (List.mem_of_mem_filter (ih r h))

theorem dedup_subset (l : List Row) (r : Row) (h : r ∈ drop_duplicates_first l) : r ∈ l :=
  recDedup_subset l r (dd_eq_rec l ▸ h)

theorem find?_filter_of_imp (p q : Row → Bool) :
    ∀ l : List Row, (∀ x, p x = true → q x = true) →
      (l.filter q).find? p = l.find? p := by
  intro l himp
  induction l with
  | nil => rfl
  | cons x tl ih =>
    by_cases hq : q x = true
    · rw [List.filter_cons_of_pos hq]
      cases hp : p x
      · rw [List.find?_cons_of_neg _ (by simp [hp]), List.find?_cons_of_neg _ (by simp [hp]), ih]
      · rw [List.find?_cons_of_pos _ hp, List.find?_cons_of_pos _ hp]
    · have hp : p x = false := by
        cases hpx : p x
        · rfl
        · exact absurd (himp x hpx) hq
      rw [List.filter_cons_of_neg (by simp [hq]), ih,
        List.find?_cons_of_neg _ (by simp [hp])]

theorem recDedup_mem_iff : ∀ (l : List Row) (r : Row),
    r ∈ dedupFirstRec l ↔
      r ∈ l ∧ l.find? (fun x => x.originalName == r.originalName) = some r := by
  intro l
  induction l using dedupFirstRec.induct with
  | case1 => intro r; simp [dedupFirstRec]
  | case2 a rest ih =>
    intro r
    rw [dedupFirstRec]
    by_cases hn : a.originalName = r.originalName
    · constructor
      · intro h
        rcases List.mem_cons.mp h with rfl | h
        · exact ⟨List.mem_cons_self r rest, by simp [List.find?]⟩
        · have hpred := (List.mem_filter.mp (recDedup_subset _ r h)).2
          simp only [decide_eq_true_eq] at hpred
          exact absurd hn.symm hpred
      · rintro ⟨hmem, hfind⟩
        have hpa : (a.originalName == r.originalName) = true := by simp [hn]
        simp only [List.find?, hpa] at hfind
        have heq : a = r := by injection hfind
        subst heq
        exact List.mem_cons_self a _
    · have hpa : (a.originalName == r.originalName) = false := by simp [hn]
      have himp : ∀ x : Row, ((fun x : Row => x.originalName == r.originalName) x) = true →
          ((fun x : Row => decide (x.originalName ≠ a.originalName)) x) = true := by
        intro x hx
        simp only [beq_iff_eq] at hx
        simp only [decide_eq_true_eq, hx]
        exact fun hh => hn hh.symm
      constructor
      · intro h
        rcases List.mem_cons.mp h with rfl | h
        · exact absurd rfl hn
        · obtain ⟨hm, hf⟩ := (ih r).mp h
          refine ⟨List.mem_cons_of_mem a (List.mem_of_mem_filter hm), ?_⟩
          simp only [List.find?, hpa]
          rw [← find?_filter_of_imp _ _ rest himp]
          exact hf
      · rintro ⟨hmem, hfind⟩
        simp only [List.find?, hpa] at hfind
        have hrmem : r ∈ rest := by
          rcases List.mem_cons.mp hmem with rfl | hh
          · exact absurd rfl hn
          · exact hh
        refine List.mem_cons_of_mem a ((ih r).mpr ⟨?_, ?_⟩)
        · refine List.mem_filter.mpr ⟨hrmem, ?_⟩
          simp only [decide_eq_true_eq]
          exact fun hh => hn hh.symm
        · rw [find?_filter_of_imp _ _ rest himp]
          exact hfind

theorem recDedup_pairwise : ∀ l : List Row,
    (dedupFirstRec l).Pairwise (fun x y => x.originalName ≠ y.originalName) := by
  intro l
  induction l using dedupFirstRec.induct with
  | case1 => rw [dedupFirstRec]; exact List.Pairwise.nil
  | case2 a rest ih =>
    rw [dedupFirstRec]
    refine List.Pairwise.cons ?_ ih
    intro b hb
    have hpred := (List.mem_filter.mp (recDedup_subset _ b hb)).2
    simp only [decide_eq_true_eq] at hpred
    exact fun h => hpred h.symm

theorem dedup_mem_iff (l : List Row) (r : Row) :
    r ∈ drop_duplicates_first l ↔
      r ∈ l ∧ l.find? (fun x => x.originalName == r.originalName) = some r := by
  rw [dd_eq_rec]
  exact recDedup_mem_iff l r

theorem dedup_pairwise (l : List Row) :
    (drop_duplicates_first l).Pairwise (fun x y => x.originalName ≠ y.originalName) := by
  rw [dd_eq_rec]
  exact recDedup_pairwise l

/-! ## Claim C1 -/

/-- C1: for every recognized public operation (authenticate_seeq,
check_auth_status, search_sensors_only, search_and_pull_sensors,
test_connection, get_server_info - plus the authenticate_seeq variant in
seeq_auth.py) and every input and external-world behavior, the operation
returns a result envelope rather than raising: the envelope always carries
a boolean `success` key, and the `error`/`traceback` keys appear only in
envelopes whose `success` is `false`. -/
theorem C1_public_operations_return_envelopes :
    (∀ c w, envOKb (authenticate_seeq c w).1 = true) ∧
    (∀ u ia, envOKb (check_auth_status u ia) = true) ∧
    (∀ names c w, envOKb (search_sensors_only names c w).1 = true) ∧
    (∀ a w, envOKb (search_and_pull_sensors a w).1 = true) ∧
    (∀ url, envOKb (test_connection url) = true) ∧
    (∀ url, envOKb (get_server_info url) = true) ∧
    (∀ c w sd, envOKb (seeq_auth_authenticate_seeq c w sd).1 = true) := by
  refine ⟨?_, ?_, ?_, ?_, ?_, ?_, ?_⟩
  · intro c w
    obtain ⟨pi, cp, lg, us, se, pu, fl, du, pe⟩ := w
    cases cp <;> cases lg <;> cases us <;> rfl
  · intro u ia
    cases u <;> cases ia <;> rfl
  · intro names c w
    obtain ⟨pi, cp, lg, us, se, pu, fl, du, pe⟩ := w
    cases pi <;> cases cp <;> cases lg <;> cases us <;>
      simp only [search_sensors_only, authenticate_seeq] <;>
      (repeat' split) <;> rfl
  · intro a w
    obtain ⟨pi, cp, lg, us, se, pu, fl, du, pe⟩ := w
    cases pi <;> cases cp <;> cases lg <;> cases us <;>
      simp only [search_and_pull_sensors, authenticate_seeq] <;>
      (repeat' split) <;> rfl
  · intro url
    rfl
  · intro url
    rfl
  · intro c w sd
    obtain ⟨pi, cp, lg, us, se, pu, fl, du, pe⟩ := w
    cases sd <;> cases cp <;> cases lg <;> cases us <;> rfl

/-! ## Claim C2 -/

/-- C2 counterexample: the normalizer does NOT fail with a parse error on
empty input or when all four strategies fail - it returns `None` in both
cases - and the enclosing operation then returns the missing-datetime
envelope (error `"Missing datetime values"`), not the parse-failure
envelope (error `"Datetime parsing failed"`), at the concrete input
`sampleArgs` with empty start datetime. -/
theorem C2_counterexample :
    parse_excel_friendly_datetime sampleWorld.flex sampleWorld.du (some "") = none ∧
    parse_excel_friendly_datetime sampleWorld.flex sampleWorld.du (some "not a date") = none ∧
    (search_and_pull_sensors sampleArgs sampleWorld).1 = missingDtEnv ∧
    getStrOr (search_and_pull_sensors sampleArgs sampleWorld).1 "error" "" =
      "Missing datetime values" ∧
    getStrOr (invalidDtEnv sampleWorld.parseErr) "error" "" = "Datetime parsing failed" :=
  ⟨rfl, rfl, rfl, rfl, rfl⟩

/-- C2 (amended): for empty/null raw input the normalizer returns `None`
without raising, and when the flexible parse, every explicit layout, the
serial interpretation and the dateutil parse all fail on a non-empty input
it also returns `None` (the `raise` in the handler is unreachable); in
either case `search_and_pull_sensors` - once past authentication - returns
the success:false envelope `'Start and end datetime are required'` with
error `'Missing datetime values'` and issues no pull call, never
substituting a default instant. -/
theorem C2_all_strategies_fail_returns_none :
    (∀ flex du, parse_excel_friendly_datetime flex du none = none) ∧
    (∀ flex du, parse_excel_friendly_datetime flex du (some "") = none) ∧
    (∀ flex du s, s ≠ "" → flex s = none → firstExcelFormatParse s = none →
      python_float_parse s = none → du s = none →
      parse_excel_friendly_datetime flex du (some s) = none) ∧
    (∀ (a : SPArgs) (w : World) (u : String),
      w.pandasImport = .ok () → w.compat = .ok → w.login = .ok () → w.user = some u →
      a.url ≠ "" → a.accessKey ≠ "" → a.password ≠ "" →
      (parse_excel_friendly_datetime w.flex w.du a.startDatetime = none ∨
        parse_excel_friendly_datetime w.flex w.du a.endDatetime = none) →
      (search_and_pull_sensors a w).1 = missingDtEnv ∧
      ∀ rows st en g, RemoteCall.pull rows st en g ∉ (search_and_pull_sensors a w).2) := by
  refine ⟨fun _ _ => rfl, fun _ _ => rfl, ?_, ?_⟩
  · intro flex du s hs hf hx hp hd
    simp only [parse_excel_friendly_datetime, if_neg hs, hf, hx, hp, hd]
  · intro a w u hpi hcp hlg hus hu hk hp hparse
    have key : search_and_pull_sensors a w
        = (missingDtEnv, [.login (coerce_ignore_ssl a.ignoreSsl)]) := by
      rcases hparse with h | h
      · simp [search_and_pull_sensors, authenticate_seeq, timeBounds, getSuccess,
          lookupEnv, authSuccessEnv, hpi, hcp, hlg, hus, h, hu, hk, hp]
      · cases hq : parse_excel_friendly_datetime w.flex w.du a.startDatetime <;>
          simp [search_and_pull_sensors, authenticate_seeq, timeBounds, getSuccess,
            lookupEnv, authSuccessEnv, hpi, hcp, hlg, hus, h, hq, hu, hk, hp]
    rw [key]
    exact ⟨rfl, by intro rows st en g hmem; simp at hmem⟩

/-- C2 witness: the amended C2 theorem applied at the concrete string
`"not a date"` (all four strategies fail) and at `sampleArgs` /
`sampleWorld` (empty start datetime). -/
theorem C2_witness :
    parse_excel_friendly_datetime sampleWorld.flex sampleWorld.du (some "not a date") = none ∧
    (search_and_pull_sensors sampleArgs sampleWorld).1 = missingDtEnv :=
  ⟨C2_all_strategies_fail_returns_none.2.2.1 sampleWorld.flex sampleWorld.du "not a date"
      (by decide) rfl (by decide) (by decide) rfl,
    (C2_all_strategies_fail_returns_none.2.2.2 sampleArgs sampleWorld "alice"
      rfl rfl rfl rfl (by decide) (by decide) (by decide) (Or.inl rfl)).1⟩

/-! ## Claim C3 -/

/-- C3 counterexample: at `sampleArgs` (whose start datetime fails to
resolve) and `sampleWorld` (valid credentials), `search_and_pull_sensors`
has already issued the remote login call, contradicting the claim that no
login call is issued when a datetime fails to resolve. -/
theorem C3_counterexample :
    resolvedBounds sampleWorld sampleArgs.timezone sampleArgs.startDatetime
      sampleArgs.endDatetime = none ∧
    RemoteCall.login false ∈ (search_and_pull_sensors sampleArgs sampleWorld).2 :=
  ⟨rfl, by decide⟩

/-- C3 (amended): whenever the start or end datetime fails to resolve to a
valid instant, `search_and_pull_sensors` returns a success:false envelope
and issues no search and no pull call; authentication, however, runs before
datetime parsing, so a login call may already have been issued. -/
theorem C3_fail_fast_before_search_and_pull :
    ∀ (a : SPArgs) (w : World),
      resolvedBounds w a.timezone a.startDatetime a.endDatetime = none →
      getSuccess (search_and_pull_sensors a w).1 = some false ∧
      ∀ cl ∈ (search_and_pull_sensors a w).2, isSearchOrPull cl = false := by
  intro a w h
  obtain ⟨pi, cp, lg, us, se, pu, fl, du, pe⟩ := w
  unfold resolvedBounds at h
  rcases htb : timeBounds ⟨pi, cp, lg, us, se, pu, fl, du, pe⟩
      a.timezone a.startDatetime a.endDatetime with m | o
  · cases pi <;> cases cp <;> cases lg <;> cases us <;>
      simp only [search_and_pull_sensors, authenticate_seeq, htb,
        show ∀ m, getSuccess (authExcEnv m) = some false from fun _ => rfl,
        show ∀ u v, getSuccess (authSuccessEnv u v) = some true from fun _ _ => rfl,
        show getSuccess authNoUserEnv = some false from rfl] <;>
      (repeat' split) <;>
      exact ⟨rfl, by simp [isSearchOrPull]⟩
  · rcases o with _ | p
    · cases pi <;> cases cp <;> cases lg <;> cases us <;>
        simp only [search_and_pull_sensors, authenticate_seeq, htb,
          show ∀ m, getSuccess (authExcEnv m) = some false from fun _ => rfl,
          show ∀ u v, getSuccess (authSuccessEnv u v) = some true from fun _ _ => rfl,
          show getSuccess authNoUserEnv = some false from rfl] <;>
        (repeat' split) <;>
        exact ⟨rfl, by simp [isSearchOrPull]⟩
    · rw [htb] at h
      simp at h

/-- C3 witness: the amended theorem applied at `sampleArgs`/`sampleWorld`. -/
theorem C3_witness :
    getSuccess (search_and_pull_sensors sampleArgs sampleWorld).1 = some false ∧
    ∀ cl ∈ (search_and_pull_sensors sampleArgs sampleWorld).2, isSearchOrPull cl = false :=
  C3_fail_fast_before_search_and_pull sampleArgs sampleWorld rfl

/-! ## Claim C4 -/

/-- C4: the normalizer tries the explicit calendar layouts before the
spreadsheet serial-number interpretation: whenever the flexible parse
declines and some explicit layout succeeds, the result is that first
layout's instant and the serial branch is never consulted; a numeric
string is treated as a day-serial only when the flexible parse and every
layout fail; and whenever the flexible parse declines `"45292"` (as pandas
does for a bare five-digit string), the parser yields the spreadsheet
epoch 1899-12-30T00:00:00 plus 45292 days, which is the civil instant
2024-01-01 00:00:00. -/
theorem C4_layouts_before_serial :
    (∀ flex du s t, flex s = none → firstExcelFormatParse s = some t →
      parse_excel_friendly_datetime flex du (some s) = some t) ∧
    (∀ flex du s f, flex s = none → firstExcelFormatParse s = none →
      python_float_parse s = some f →
      parse_excel_friendly_datetime flex du (some s) = some (excelSerialTimestamp f)) ∧
    (∀ flex du, flex "45292" = none →
      parse_excel_friendly_datetime flex du (some "45292")
        = some ⟨45292 * 86400, none⟩) ∧
    (45292 * 86400 : Int) = civilWall 2024 1 1 0 0 0 ∧
    strftimeYmdHMS (45292 * 86400) = "2024-01-01 00:00:00" := by
  refine ⟨?_, ?_, ?_, by decide, by decide⟩
  · intro flex du s t hf hx
    by_cases hs : s = ""
    · subst hs
      rw [show firstExcelFormatParse "" = none from by decide] at hx
      simp at hx
    · simp only [parse_excel_friendly_datetime, if_neg hs, hf, hx]
  · intro flex du s f hf hx hp
    by_cases hs : s = ""
    · subst hs
      rw [show python_float_parse "" = none from by decide] at hp
      simp at hp
    · simp only [parse_excel_friendly_datetime, if_neg hs, hf, hx, hp]
  · intro flex du hf
    have h1 : firstExcelFormatParse "45292" = none := by decide
    have h2 : python_float_parse "45292" = some (45292, 1) := by decide
    simp only [parse_excel_friendly_datetime, if_neg (by decide : ¬("45292" = "")), hf, h1, h2]
    decide

/-- C4 witness: the layered chain applied at a layout-matching string and
at the bare serial `"45292"`, with a flexible-parse oracle that declines
every string. -/
theorem C4_witness :
    parse_excel_friendly_datetime (fun _ => none) (fun _ => none) (some "2025-09-01")
      = some ⟨civilWall 2025 9 1 0 0 0, none⟩ ∧
    parse_excel_friendly_datetime (fun _ => none) (fun _ => none) (some "45292")
      = some ⟨45292 * 86400, none⟩ :=
  ⟨C4_layouts_before_serial.1 (fun _ => none) (fun _ => none) "2025-09-01" _ rfl (by decide),
   C4_layouts_before_serial.2.2.1 (fun _ => none) (fun _ => none) rfl⟩

/-! ## Claim C5 -/

/-- C5 counterexample: with no zone supplied, an aware start and a naive
end, the timezone step leaves the end instant timezone-naive (the branch
at `seeq_runner.py:367` tests only `start_dt.tz`), whereas the claim
requires an instant that carries no timezone to be localized as UTC. -/
theorem C5_counterexample :
    applyTimezone none ⟨0, some 300⟩ ⟨0, none⟩ = .ok (⟨0, some 300⟩, ⟨0, none⟩) ∧
    applyTimezone none ⟨0, some 300⟩ ⟨0, none⟩ ≠ .ok (⟨0, some 300⟩, ⟨0, some 0⟩) :=
  ⟨rfl, by simp [applyTimezone]⟩

/-- C5 (amended): for successfully parsed instants in
`search_and_pull_sensors`: if a zone is supplied and both instants are
naive, each is interpreted as UTC and converted to the zone; if a zone is
supplied and either instant is already aware, the step raises (an
error envelope results) instead of leaving it unchanged; if no zone is
supplied, the branch is chosen by the start instant alone - when the start
is naive both are localized as UTC (raising if the end is aware), and when
the start is aware both are left unchanged, even a naive end. -/
theorem C5_timezone_resolution :
    (∀ (z : Int) (s e : Timestamp), s.tz = none → e.tz = none →
      applyTimezone (some z) s e
        = .ok (⟨s.wall + z * 60, some z⟩, ⟨e.wall + z * 60, some z⟩)) ∧
    (∀ (z : Int) (s e : Timestamp), s.tz ≠ none ∨ e.tz ≠ none →
      ∃ m, applyTimezone (some z) s e = .error m) ∧
    (∀ s e : Timestamp, s.tz = none → e.tz = none →
      applyTimezone none s e = .ok (⟨s.wall, some 0⟩, ⟨e.wall, some 0⟩)) ∧
    (∀ s e : Timestamp, s.tz = none → e.tz ≠ none →
      ∃ m, applyTimezone none s e = .error m) ∧
    (∀ (s e : Timestamp) (o : Int), s.tz = some o →
      applyTimezone none s e = .ok (s, e)) := by
  refine ⟨?_, ?_, ?_, ?_, ?_⟩
  · intro z s e hs he
    obtain ⟨sw, stz⟩ := s
    obtain ⟨ew, etz⟩ := e
    simp only at hs he
    subst hs he
    simp [applyTimezone, tz_localize_utc, tz_convert]
  · intro z s e h
    obtain ⟨sw, stz⟩ := s
    obtain ⟨ew, etz⟩ := e
    rcases h with h | h <;> simp only at h
    · cases stz with
      | none => exact absurd rfl h
      | some o => exact ⟨_, rfl⟩
    · cases etz with
      | none => exact absurd rfl h
      | some o =>
        cases stz with
        | none => exact ⟨_, rfl⟩
        | some o2 => exact ⟨_, rfl⟩
  · intro s e hs he
    obtain ⟨sw, stz⟩ := s
    obtain ⟨ew, etz⟩ := e
    simp only at hs he
    subst hs he
    simp [applyTimezone, tz_localize_utc]
  · intro s e hs he
    obtain ⟨sw, stz⟩ := s
    obtain ⟨ew, etz⟩ := e
    simp only at hs he
    subst hs
    cases etz with
    | none => exact absurd rfl he
    | some o => exact ⟨_, rfl⟩
  · intro s e o hs
    obtain ⟨sw, stz⟩ := s
    simp only at hs
    subst hs
    rfl

/-- C5 witness: the amended characterization applied at concrete instants
covering each of its five cases. -/
theorem C5_witness :
    applyTimezone (some 60) ⟨0, none⟩ ⟨3600, none⟩
      = .ok (⟨3600, some 60⟩, ⟨7200, some 60⟩) ∧
    (∃ m, applyTimezone (some 60) ⟨0, some 0⟩ ⟨0, none⟩ = .error m) ∧
    applyTimezone none ⟨0, none⟩ ⟨3600, none⟩ = .ok (⟨0, some 0⟩, ⟨3600, some 0⟩) ∧
    (∃ m, applyTimezone none ⟨0, none⟩ ⟨0, some 120⟩ = .error m) ∧
    applyTimezone none ⟨0, some 300⟩ ⟨42, none⟩ = .ok (⟨0, some 300⟩, ⟨42, none⟩) :=
  ⟨C5_timezone_resolution.1 60 ⟨0, none⟩ ⟨3600, none⟩ rfl rfl,
   C5_timezone_resolution.2.1 60 ⟨0, some 0⟩ ⟨0, none⟩ (Or.inl (by simp)),
   C5_timezone_resolution.2.2.1 ⟨0, none⟩ ⟨3600, none⟩ rfl rfl,
   C5_timezone_resolution.2.2.2.1 ⟨0, none⟩ ⟨0, some 120⟩ rfl (by simp),
   C5_timezone_resolution.2.2.2.2 ⟨0, some 300⟩ ⟨42, none⟩ 300 rfl⟩

/-! ## Claim C6 -/

/-- C6: in `seeq_runner.py`'s `search_and_pull_sensors` - the variant the
dispatcher invokes - every pull call is issued over exactly the
deduplication (by originally requested name, keeping the first occurrence)
of the found-sensor filter of the combined search records;
`drop_duplicates_first` keeps precisely each name's first occurrence
(membership holds iff the row is the list's first hit for its name) and
its output has pairwise-distinct names.  The `seeq_auth.py` variant (whose
cited lines lack the dedup step) never issues any remote call in the
repository as it stands, because its `spy` name is unbound. -/
theorem C6_dedup_before_pull :
    (∀ (a : SPArgs) (w : World) (rows : List Row) (st en : Timestamp) (g : String),
      RemoteCall.pull rows st en g ∈ (search_and_pull_sensors a w).2 →
      rows = drop_duplicates_first
        ((combinedRows w a.sensorNames).filter (fun r => r.id.isSome))) ∧
    (∀ (l : List Row) (r : Row), r ∈ drop_duplicates_first l ↔
      r ∈ l ∧ l.find? (fun x => x.originalName == r.originalName) = some r) ∧
    (∀ l : List Row,
      (drop_duplicates_first l).Pairwise (fun x y => x.originalName ≠ y.originalName)) ∧
    (∀ names sd ed grid tz c w,
      (seeq_auth_search_and_pull names sd ed grid tz c w false).2 = []) := by
  refine ⟨?_, dedup_mem_iff, dedup_pairwise, fun _ _ _ _ _ _ _ => rfl⟩
  intro a w rows st en g hmem
  obtain ⟨pi, cp, lg, us, se, pu, fl, du, pe⟩ := w
  simp only [search_and_pull_sensors, authenticate_seeq] at hmem
  cases pi <;> cases cp <;> cases lg <;> cases us <;>
    simp only at hmem <;>
    (repeat' split at hmem) <;>
    simp only [combinedRows] <;>
    simp only [List.mem_append, List.mem_singleton, List.mem_map, List.not_mem_nil,
      List.mem_cons, RemoteCall.pull.injEq, reduceCtorEq, and_false, false_and,
      exists_false, or_false, false_or] at hmem <;>
    try exact hmem.1

/-- C6 witness: at `pullArgs`/`sampleWorld` the pull call occurs, and the
claim theorem identifies its rows with the deduplicated found set. -/
theorem C6_witness :
    RemoteCall.pull [⟨"TEMP.1", some "ID-1", "TEMP.1", none⟩]
        ⟨civilWall 2025 9 1 0 0 0, some 0⟩ ⟨civilWall 2025 9 2 0 0 0, some 0⟩ "15min"
      ∈ (search_and_pull_sensors pullArgs sampleWorld).2 ∧
    [(⟨"TEMP.1", some "ID-1", "TEMP.1", none⟩ : Row)]
      = drop_duplicates_first
          ((combinedRows sampleWorld pullArgs.sensorNames).filter (fun r => r.id.isSome)) :=
  ⟨by decide,
   C6_dedup_before_pull.1 pullArgs sampleWorld
     [⟨"TEMP.1", some "ID-1", "TEMP.1", none⟩]
     ⟨civilWall 2025 9 1 0 0 0, some 0⟩ ⟨civilWall 2025 9 2 0 0 0, some 0⟩ "15min"
     (by decide)⟩

/-! ## Claim C7 -/

/-- C7 counterexample: `pandas.NaT` exposes `isoformat` (it is
timestamp-like in the claim's sense), yet the sanitizer maps it to null,
not to a `YYYY-MM-DD HH:MM:SS` string: the `obj != obj` check at
`seeq_runner.py:512` precedes the isoformat check at line 514 and NaT
fails self-equality. -/
theorem C7_counterexample :
    hasIsoformat PyVal.nat = true ∧
    clean_for_json PyVal.nat = PyVal.pynone ∧
    isStrVal (clean_for_json PyVal.nat) = false :=
  ⟨rfl, rfl, rfl⟩

/-- C7 (amended): every `pandas.Timestamp` leaf reaching the sanitizer is
formatted as `YYYY-MM-DD HH:MM:SS` - timezone-aware values converted to
UTC before formatting, naive values formatted directly (the spec's
`spec_timestamp_string` rule); in particular the aware timestamp
2025-09-01T00:00:00+05:00 sanitizes to `"2025-08-31 19:00:00"`.  The one
timestamp-like value exempt from this is `pandas.NaT`, which fails
`obj == obj` and is mapped to null by the earlier NaN branch. -/
theorem C7_timestamp_formatting :
    (∀ t : Timestamp, clean_for_json (.timestamp t) = .str (spec_timestamp_string t)) ∧
    clean_for_json PyVal.nat = PyVal.pynone ∧
    clean_for_json (.timestamp ⟨civilWall 2025 9 1 0 0 0, some 300⟩)
      = .str "2025-08-31 19:00:00" :=
  ⟨fun _ => rfl, rfl, by decide⟩

/-! ## Claim C8 -/

/-- C8: the sanitizer maps every NaN-valued floating leaf to null at any
nesting depth inside mappings and sequences - the NaN check precedes the
general scalar pass-through, so no NaN float survives anywhere in the
output of `clean_for_json`. -/
theorem C8_no_nan_survives : ∀ x : PyVal, hasNaNLeaf (clean_for_json x) = false :=
  clean_val_noNaN

/-! ## Claim C9 -/

/-- C9: the sanitizer is idempotent - sanitizing an already-sanitized value
changes nothing, for every input. -/
theorem C9_sanitizer_idempotent :
    ∀ x : PyVal, clean_for_json (clean_for_json x) = clean_for_json x :=
  clean_val_idem

/-! ## Claim C10 -/

/-- C10: `ignore_ssl_errors` is coerced to a boolean before the login
call: a string coerces to true exactly when its lowercase form is one of
`'true', '1', 'yes', 'on'`; a boolean passes through unchanged; every
other value coerces to false; and the login call recorded by
`authenticate_seeq` always carries exactly the coerced value. -/
theorem C10_ignore_ssl_coercion :
    (∀ s : String, coerce_ignore_ssl (.pstr s) = true ↔
      pyLower s ∈ ["true", "1", "yes", "on"]) ∧
    (∀ b, coerce_ignore_ssl (.pbool b) = b) ∧
    coerce_ignore_ssl .pother = false ∧
    (∀ (c : Creds) (w : World) (b : Bool),
      RemoteCall.login b ∈ (authenticate_seeq c w).2 →
      b = coerce_ignore_ssl c.ignoreSsl) := by
  refine ⟨?_, fun _ => rfl, rfl, ?_⟩
  · intro s
    simp [coerce_ignore_ssl]
  · intro c w b hmem
    obtain ⟨pi, cp, lg, us, se, pu, fl, du, pe⟩ := w
    cases cp <;> cases lg <;> cases us <;>
      simp only [authenticate_seeq] at hmem <;> simp at hmem <;> try exact hmem

/-- C10 witness: the coercion rule applied at the concrete string
`"TRUE"`, and the login-call conjunct applied at a concrete credential
bundle carrying a boolean flag. -/
theorem C10_witness :
    coerce_ignore_ssl (.pstr "TRUE") = true ∧
    false = coerce_ignore_ssl (PyArg.pbool false) :=
  ⟨(C10_ignore_ssl_coercion.1 "TRUE").mpr (by decide),
   C10_ignore_ssl_coercion.2.2.2 ⟨"u", "k", "p", "Seeq", .pbool false⟩ sampleWorld false
     (by decide)⟩
